import Mathlib

/-!
Verification of the session state machine of `ic-use-internet-identity`
(`src/index.tsx` and companions), shallowly embedded in Lean 4.

The store context, its `setState` merge transition, the query helpers
(`isAuthenticated`, `getIdentity`, `ensureInitialized`), the controller
transitions (`login`, `onLoginSuccess`, `onLoginError`, `clear`) and the
expiry timers armed with `setTimeout` are translated from the source.
External collaborators (`@dfinity/auth-client`, `@dfinity/identity`, the
host Promise and timer primitives) are modelled at their interface
boundary only, as the spec prescribes.
-/

namespace II

/-- Session status, from the `Status` union of `context.type`:
"initializing" | "idle" | "logging-in" | "success" | "error". -/
inductive Status where
  | initializing
  | idle
  | loggingIn
  | success
  | error
  deriving DecidableEq, Repr

/-- Interface boundary of the external `@dfinity/identity` collaborator:
a delegation chain is a list of signed delegations, of which the code only
reads each delegation's `expiration` timestamp (nanoseconds since epoch). -/
structure DelegationChain where
  delegations : List Int
  deriving DecidableEq, Repr

/-- Interface boundary of the external identity value: the session code only
queries `getPrincipal().isAnonymous()`, `instanceof DelegationIdentity`, and
(for delegation identities) the delegation chain. -/
inductive Identity where
  | basic (anonPrincipal : Bool)
  | delegated (anonPrincipal : Bool) (chain : DelegationChain)
  deriving DecidableEq, Repr

/-- Mirrors `identity.getPrincipal().isAnonymous()`. -/
def Identity.isAnonymousPrincipal : Identity → Bool
  | .basic a => a
  | .delegated a _ => a

/-- Mirrors `identity instanceof DelegationIdentity`. -/
def Identity.isDelegationIdentity : Identity → Bool
  | .basic _ => false
  | .delegated _ _ => true

/-- Mirrors `identity.getDelegation()`, defined only on delegation identities. -/
def Identity.getDelegation : Identity → Option DelegationChain
  | .basic _ => none
  | .delegated _ c => some c

/-- Interface boundary of the external `isDelegationValid` from
`@dfinity/identity`: every delegation in the chain must expire strictly
after the current time (nanoseconds). -/
def isDelegationValid (chain : DelegationChain) (nowNs : Int) : Bool :=
  chain.delegations.all (fun e => nowNs < e)

/-- Interface boundary of the external `AuthClient` collaborator: the only
capability the session code reads synchronously is `getIdentity()`. -/
structure AuthClient where
  currentIdentity : Identity
  deriving DecidableEq, Repr

/-- AuthClientCreateOptions, restricted to the `idleOptions` keys the source
manipulates. -/
structure CreateOptions where
  disableIdle : Option Bool := none
  disableDefaultIdleCallback : Option Bool := none
  deriving DecidableEq, Repr

/-- LoginOptions from `login-options.type.ts`: the caller-facing subset of
`AuthClientLoginOptions`, of which the controller reads `maxTimeToLive`
(nanoseconds) and `identityProvider`. -/
structure LoginOptions where
  maxTimeToLive : Option Int := none
  identityProvider : Option String := none
  deriving DecidableEq, Repr

/-- StoreContext from `index.tsx`: the single source of truth held by the
xstate store. Errors are modelled by their message string. -/
structure StoreContext where
  providerComponentPresent : Bool
  authClient : Option AuthClient
  createOptions : Option CreateOptions
  loginOptions : Option LoginOptions
  status : Status
  error : Option String
  identity : Option Identity
  clearIdentityOnExpiry : Bool
  deriving DecidableEq, Repr

/-- initialContext from `index.tsx`. -/
def initialContext : StoreContext where
  providerComponentPresent := false
  authClient := none
  createOptions := none
  loginOptions := none
  status := Status.initializing
  error := none
  identity := none
  clearIdentityOnExpiry := true

/-- StoreEvent, i.e. `{ type: "setState" } & Partial<StoreContext>`: a patch
in which each field is either absent (`none`) or present with a value, where
for optional context fields the present value may itself be `undefined`
(hence the nested `Option`). -/
structure StoreEvent where
  providerComponentPresent : Option Bool := none
  authClient : Option (Option AuthClient) := none
  createOptions : Option (Option CreateOptions) := none
  loginOptions : Option (Option LoginOptions) := none
  status : Option Status := none
  error : Option (Option String) := none
  identity : Option (Option Identity) := none
  clearIdentityOnExpiry : Option Bool := none
  deriving DecidableEq, Repr

/-- The store's sole transition, `setState: (context, event) => ({ ...context,
...event })`: a key present on the event overrides the context field, a key
absent from the event leaves the field unchanged. -/
def setState (context : StoreContext) (event : StoreEvent) : StoreContext where
  providerComponentPresent :=
    event.providerComponentPresent.getD context.providerComponentPresent
  authClient := event.authClient.getD context.authClient
  createOptions := event.createOptions.getD context.createOptions
  loginOptions := event.loginOptions.getD context.loginOptions
  status := event.status.getD context.status
  error := event.error.getD context.error
  identity := event.identity.getD context.identity
  clearIdentityOnExpiry :=
    event.clearIdentityOnExpiry.getD context.clearIdentityOnExpiry

/-- The validity check the source writes inline both in `isAuthenticated` and
in `login`: not anonymous, a DelegationIdentity, and `isDelegationValid` on
its delegation chain. -/
def validNonAnonymousDelegation (identity : Identity) (nowNs : Int) : Bool :=
  !identity.isAnonymousPrincipal && identity.isDelegationIdentity &&
    (match identity.getDelegation with
      | some chain => isDelegationValid chain nowNs
      | none => false)

/-- isAuthenticated from `index.tsx`, as a function of the current snapshot
and the current time consulted by the delegation-validity check. -/
def isAuthenticated (context : StoreContext) (nowNs : Int) : Bool :=
  match context.identity with
  | none => false
  | some identity =>
      if validNonAnonymousDelegation identity nowNs then true else false

/-- getIdentity from `index.tsx`: raw read of the snapshot's identity. -/
def getIdentity (context : StoreContext) : Option Identity :=
  context.identity

/-- Result of a call to `ensureInitialized`: a resolved value, a thrown or
propagated error, or suspension on the epoch's initialization promise. -/
inductive EnsureResult where
  | value (identity : Option Identity)
  | failure (e : String)
  | awaitBarrier
  deriving DecidableEq, Repr

/-- ensureInitialized from `index.tsx`: throws the stored error when status is
"error", answers from the live snapshot when status is settled, and otherwise
awaits the initialization promise. -/
def ensureInitialized (context : StoreContext) (nowNs : Int) : EnsureResult :=
  if context.status = Status.error then
    EnsureResult.failure (context.error.getD "Initialization failed")
  else if context.status ≠ Status.initializing then
    EnsureResult.value
      (if isAuthenticated context nowNs then getIdentity context else none)
  else
    EnsureResult.awaitBarrier

/-- setError helper from `index.tsx`: one merge setting status to "error" and
the error object. -/
def setError (context : StoreContext) (err : String) : StoreContext :=
  setState context { status := some Status.error, error := some (some err) }

/-- ONE_HOUR_IN_NANOSECONDS constant from `index.tsx`. -/
def ONE_HOUR_IN_NANOSECONDS : Int := 3600000000000

/-- DEFAULT_IDENTITY_PROVIDER constant from `index.tsx`. -/
def DEFAULT_IDENTITY_PROVIDER : String := "https://identity.ic0.app"

/-- The resolved options handed to `authClient.login`, minus the two
callbacks: defaults overridden by the spread of `context.loginOptions`. -/
structure ResolvedLoginOptions where
  identityProvider : String
  maxTimeToLive : Int
  deriving DecidableEq, Repr

/-- Resolution of the login options in `login`: the spread
`{ identityProvider: DEFAULT, maxTimeToLive: ONE_HOUR, ...context.loginOptions }`. -/
def resolveLoginOptions (context : StoreContext) : ResolvedLoginOptions where
  identityProvider :=
    (context.loginOptions.bind (fun lo => lo.identityProvider)).getD
      DEFAULT_IDENTITY_PROVIDER
  maxTimeToLive :=
    (context.loginOptions.bind (fun lo => lo.maxTimeToLive)).getD
      ONE_HOUR_IN_NANOSECONDS

/-- Observable outcome of one call to `login`: either a precondition failure
(recorded via `setError`, no handshake started) or the dispatch of one
interactive handshake to the Auth Client with the resolved options. -/
inductive LoginOutcome where
  | preconditionError (message : String)
  | dispatched (options : ResolvedLoginOptions)
  deriving DecidableEq, Repr

/-- login from `index.tsx`: the three precondition checks in source order
(provider component present, auth client available, caller not already
holding a valid non-anonymous delegation), then one merge setting status to
"logging-in" with error cleared and the fire-and-forget dispatch of
`authClient.login`. Returns the updated context and the call's outcome. -/
def login (context : StoreContext) (nowNs : Int) : StoreContext × LoginOutcome :=
  if !context.providerComponentPresent then
    (setError context
        "The InternetIdentityProvider component is not present. Make sure to wrap your app with it.",
      LoginOutcome.preconditionError
        "The InternetIdentityProvider component is not present. Make sure to wrap your app with it.")
  else
    match context.authClient with
    | none =>
        (setError context
            "AuthClient is not initialized yet, make sure to call `login` on user interaction e.g. click.",
          LoginOutcome.preconditionError
            "AuthClient is not initialized yet, make sure to call `login` on user interaction e.g. click.")
    | some authClient =>
        if validNonAnonymousDelegation authClient.currentIdentity nowNs then
          (setError context "User is already authenticated",
            LoginOutcome.preconditionError "User is already authenticated")
        else
          (setState context
              { status := some Status.loggingIn, error := some none },
            LoginOutcome.dispatched (resolveLoginOptions context))

/-- A one-shot timer handed to the host's `setTimeout` with callback `clear`
and the given delay in milliseconds. The source never keeps the returned
handle, so a request is identified by its delay alone. -/
structure TimerRequest where
  delayMs : Int
  deriving DecidableEq, Repr

/-- The delay computed in `onLoginSuccess`:
`maxTimeToLiveMs - 1000` where `maxTimeToLiveMs` is
`context.loginOptions?.maxTimeToLive ? Number(maxTimeToLive / 1_000_000n)
: Number(ONE_HOUR_IN_NANOSECONDS / 1_000_000n)` — a truthiness test, so a
present-but-zero lifetime falls back to the default. -/
def onLoginSuccessDelayMs (context : StoreContext) : Int :=
  let maxTimeToLiveMs : Int :=
    match context.loginOptions.bind (fun lo => lo.maxTimeToLive) with
    | some t =>
        if t = 0 then ONE_HOUR_IN_NANOSECONDS / 1000000 else t / 1000000
    | none => ONE_HOUR_IN_NANOSECONDS / 1000000
  maxTimeToLiveMs - 1000

/-- onLoginSuccess callback from `index.tsx`: reads the identity back from the
auth client (absent only when the auth client itself is absent, since
`getIdentity()` always yields an identity object), arms the expiry timer when
`clearIdentityOnExpiry` is set, and merges the success state. Returns the
updated context and the timers armed during the call. -/
def onLoginSuccess (context : StoreContext) : StoreContext × List TimerRequest :=
  match context.authClient with
  | none => (setError context "Identity not found after successful login", [])
  | some authClient =>
      let timers :=
        if context.clearIdentityOnExpiry then
          [TimerRequest.mk (onLoginSuccessDelayMs context)]
        else []
      (setState context
          { identity := some (some authClient.currentIdentity),
            status := some Status.success, error := some none },
        timers)

/-- onLoginError callback from `index.tsx`. -/
def onLoginError (context : StoreContext) (error : Option String) : StoreContext :=
  setError context (error.getD "Login failed")

/-- Outcome of the external `authClient.logout()` call awaited by `clear`:
resolution, or rejection with a reason (`none` models a rejection value that
is not an `Error` instance). -/
inductive LogoutOutcome where
  | resolvedOk
  | rejected (reason : Option String)
  deriving DecidableEq, Repr

/-- createAuthClient from `index.tsx`, at the point where the freshly created
external client is stored: `store.send({ type: "setState", authClient })`. -/
def createAuthClient (context : StoreContext) (newClient : AuthClient) : StoreContext :=
  setState context { authClient := some (some newClient) }

/-- clear from `index.tsx`: with no auth client it records an error; otherwise
on logout resolution it re-creates a fresh auth client and merges the idle
state, and on rejection it merges an error state, wrapping non-Error
rejection values in a generic "Logout failed" message. -/
def clear (context : StoreContext) (outcome : LogoutOutcome)
    (newClient : AuthClient) : StoreContext :=
  match context.authClient with
  | none => setError context "Auth client not initialized"
  | some _ =>
      match outcome with
      | LogoutOutcome.resolvedOk =>
          let context1 := createAuthClient context newClient
          setState context1
            { authClient := some (some newClient), identity := some none,
              status := some Status.idle, error := some none }
      | LogoutOutcome.rejected reason =>
          setState context
            { status := some Status.error,
              error := some (some (reason.getD "Logout failed")) }

/-- The delay computed at the provider's restore path:
`Number(expiration / 1_000_000n) - Date.now() - 1000`, passed to
`setTimeout` without any clamping. -/
def restoreDelayMs (expirationNs nowMs : Int) : Int :=
  expirationNs / 1000000 - nowMs - 1000

/-- The timer-arming decision at the provider's restore path: only when
`clearIdentityOnExpiry` is set, the restored identity is a DelegationIdentity,
and the chain's first delegation exists (its `expiration` read via
`delegations[0]?.delegation.expiration`). -/
def restoreTimer (clearIdentityOnExpiry : Bool) (identity : Identity)
    (nowMs : Int) : Option TimerRequest :=
  if clearIdentityOnExpiry then
    match identity with
    | Identity.delegated _ chain =>
        match chain.delegations.head? with
        | some expiration => some (TimerRequest.mk (restoreDelayMs expiration nowMs))
        | none => none
    | Identity.basic _ => none
  else none

/-- The store context paired with the multiset of live (pending) expiry
timers. The source retains no `setTimeout` handle and contains no
`clearTimeout` call, so arming appends a timer and no transition removes one;
a timer leaves the list only by firing. -/
structure SysState where
  context : StoreContext
  timers : List TimerRequest
  deriving DecidableEq, Repr

/-- The login transition on the timer-tracking state: `login` arms nothing. -/
def stepLogin (s : SysState) (nowNs : Int) : SysState × LoginOutcome :=
  let r := login s.context nowNs
  (SysState.mk r.1 s.timers, r.2)

/-- The handshake-success callback on the timer-tracking state: the armed
timer (if any) joins the live set; nothing is cancelled. -/
def stepLoginSuccess (s : SysState) : SysState :=
  let r := onLoginSuccess s.context
  SysState.mk r.1 (s.timers ++ r.2)

/-- The clear transition on the timer-tracking state: the source's `clear`
contains no `clearTimeout`, so pending timers are untouched on every path. -/
def stepClear (s : SysState) (outcome : LogoutOutcome) (newClient : AuthClient) :
    SysState :=
  SysState.mk (clear s.context outcome newClient) s.timers

/-- The restore-success branch of the provider initialization effect, after
`authClient.isAuthenticated()` answered true: arm the restore timer (when
applicable) and merge the success state. -/
def stepRestoreSuccess (s : SysState) (identity : Identity) (nowMs : Int) :
    SysState :=
  let t := restoreTimer s.context.clearIdentityOnExpiry identity nowMs
  SysState.mk
    (setState s.context
      { identity := some (some identity), status := some Status.success,
        error := some none })
    (s.timers ++ t.toList)

/-- Settled outcome of one initialization epoch: the resolved
identity-or-absence, or the rejection error. -/
inductive Outcome where
  | value (identity : Option Identity)
  | failure (e : String)
  deriving DecidableEq, Repr

/-- State of the module-level initialization promise: pending with the ids of
its subscribed waiters in subscription order, or settled with an outcome. -/
inductive PromiseState where
  | pending (waiters : List Nat)
  | settled (o : Outcome)
  deriving DecidableEq, Repr

/-- The initialization barrier: the promise plus whether
`initializationResolve` is still non-null (nulled at the first settlement). -/
structure GateState where
  promise : PromiseState
  resolverLive : Bool
  deriving DecidableEq, Repr

/-- createInitializationPromise from `index.tsx`: a fresh pending promise with
live resolver and no waiters. -/
def createInitializationPromise : GateState :=
  GateState.mk (PromiseState.pending []) true

/-- A caller of `ensureInitialized` awaiting `initializationPromise` while
status is "initializing". Modelled from the host Promise contract: awaiting
a pending promise appends the continuation; continuations run in
subscription order at resolution. -/
def subscribe (g : GateState) (w : Nat) : GateState :=
  match g.promise with
  | PromiseState.pending ws =>
      GateState.mk (PromiseState.pending (ws ++ [w])) g.resolverLive
  | PromiseState.settled o => GateState.mk (PromiseState.settled o) g.resolverLive

/-- Settlement of the epoch by the provider effect, guarded by
`if (initializationResolve)`: when the resolver is live, settle the promise,
release every subscribed waiter in subscription order with the settled
outcome, and null the resolver so any later settlement attempt is a silent
no-op. Returns the new gate and the list of deliveries (waiter, outcome). -/
def settle (g : GateState) (o : Outcome) : GateState × List (Nat × Outcome) :=
  if g.resolverLive then
    match g.promise with
    | PromiseState.pending ws =>
        (GateState.mk (PromiseState.settled o) false, ws.map (fun w => (w, o)))
    | PromiseState.settled o0 => (GateState.mk (PromiseState.settled o0) false, [])
  else (g, [])

/-- The identity an auth client holds before any handshake: anonymous, not a
DelegationIdentity. -/
def anonymousIdentity : Identity := Identity.basic true

/-- An auth client whose stored identity is still the anonymous one. -/
def anonymousAuthClient : AuthClient := AuthClient.mk anonymousIdentity

/-- A non-anonymous delegation identity whose single delegation expires at
7.2e15 ns (= 7.2e9 ms) since epoch. -/
def validDelegatedIdentity : Identity :=
  Identity.delegated false (DelegationChain.mk [7200000000000000])

/-- A non-anonymous delegation identity whose single delegation expires at
9.0e12 ns = 9.0e6 ms since epoch. -/
def expiredDelegatedIdentity : Identity :=
  Identity.delegated false (DelegationChain.mk [9000000000000])

/-- A mounted, initialized, idle session whose auth client has not completed
any handshake. -/
def readyIdleContext : StoreContext where
  providerComponentPresent := true
  authClient := some anonymousAuthClient
  createOptions := none
  loginOptions := none
  status := Status.idle
  error := none
  identity := none
  clearIdentityOnExpiry := true

/-- An authenticated session: status "success", the delegated identity both in
the store and in the auth client. -/
def successContext : StoreContext where
  providerComponentPresent := true
  authClient := some (AuthClient.mk validDelegatedIdentity)
  createOptions := none
  loginOptions := none
  status := Status.success
  error := none
  identity := some validDelegatedIdentity
  clearIdentityOnExpiry := true

/-- A session that still holds an identity but whose auth client handle is
absent. -/
def noClientContext : StoreContext where
  providerComponentPresent := true
  authClient := none
  createOptions := none
  loginOptions := none
  status := Status.success
  error := none
  identity := some validDelegatedIdentity
  clearIdentityOnExpiry := true

/-- A session awaiting its handshake callbacks whose auth client ended up
holding a delegation that is already expired at the time the success callback
runs. -/
def loginSuccessContextExpired : StoreContext where
  providerComponentPresent := true
  authClient := some (AuthClient.mk expiredDelegatedIdentity)
  createOptions := none
  loginOptions := none
  status := Status.loggingIn
  error := none
  identity := none
  clearIdentityOnExpiry := true

/-- An auth client holding a delegation expiring at 1.0e12 ns. -/
def acExpiryNear : AuthClient :=
  AuthClient.mk (Identity.delegated false (DelegationChain.mk [1000000000000]))

/-- An auth client holding a delegation expiring at 2.0e15 ns. -/
def acExpiryFar : AuthClient :=
  AuthClient.mk (Identity.delegated false (DelegationChain.mk [2000000000000000]))

/-- Login options requesting a two-hour session lifetime. -/
def twoHourOptions : LoginOptions where
  maxTimeToLive := some 7200000000000
  identityProvider := none

/-- Login options requesting a one-hour session lifetime. -/
def oneHourOptions : LoginOptions where
  maxTimeToLive := some 3600000000000
  identityProvider := none

/-- A logging-in session with a two-hour requested lifetime whose client holds
the near-expiry delegation. -/
def ctxNear : StoreContext where
  providerComponentPresent := true
  authClient := some acExpiryNear
  createOptions := none
  loginOptions := some twoHourOptions
  status := Status.loggingIn
  error := none
  identity := none
  clearIdentityOnExpiry := true

/-- The same session as ctxNear except the client holds the far-expiry
delegation. -/
def ctxFar : StoreContext where
  providerComponentPresent := true
  authClient := some acExpiryFar
  createOptions := none
  loginOptions := some twoHourOptions
  status := Status.loggingIn
  error := none
  identity := none
  clearIdentityOnExpiry := true

/-- The same session as ctxNear except a one-hour requested lifetime. -/
def ctxNearOneHour : StoreContext where
  providerComponentPresent := true
  authClient := some acExpiryNear
  createOptions := none
  loginOptions := some oneHourOptions
  status := Status.loggingIn
  error := none
  identity := none
  clearIdentityOnExpiry := true

/-- A freshly mounted provider with a created auth client, before restoration
settles, with no live timer. -/
def initialSysState : SysState :=
  SysState.mk
    { providerComponentPresent := true,
      authClient := some anonymousAuthClient,
      createOptions := none,
      loginOptions := none,
      status := Status.initializing,
      error := none,
      identity := none,
      clearIdentityOnExpiry := true }
    []

/-- System state after the restore path found the valid delegated identity at
time 0 and armed its expiry timer. -/
def sAfterRestore : SysState :=
  stepRestoreSuccess initialSysState validDelegatedIdentity 0

/-- System state after a subsequent successful logout. -/
def sAfterClear : SysState :=
  stepClear sAfterRestore LogoutOutcome.resolvedOk anonymousAuthClient

/-- System state after a re-login whose handshake succeeds. -/
def sAfterRelogin : SysState :=
  stepLoginSuccess (stepLogin sAfterClear 0).1

/-- Merging the empty patch leaves every field, hence the whole snapshot,
unchanged. -/
theorem setState_empty (context : StoreContext) : setState context {} = context := by
  cases context
  rfl

/-- Folding subscriptions over a pending gate appends the waiters in
subscription order and keeps the resolver live. -/
theorem foldl_subscribe_pending (ws acc : List Nat) :
    ws.foldl subscribe (GateState.mk (PromiseState.pending acc) true)
      = GateState.mk (PromiseState.pending (acc ++ ws)) true := by
  induction ws generalizing acc with
  | nil => simp
  | cons w ws ih =>
      simp only [List.foldl_cons, subscribe]
      rw [ih]
      simp

/-- C3: for every sequence of setState (merge) calls starting from the
initial context, the snapshot after the next call has, in each field, the
patched value when the event names the field and the prior snapshot's value
otherwise; in particular the empty patch is the identity. -/
theorem store_merge_partial_update (events : List StoreEvent) (event : StoreEvent) :
    (setState (events.foldl setState initialContext) event).providerComponentPresent
      = event.providerComponentPresent.getD
          (events.foldl setState initialContext).providerComponentPresent ∧
    (setState (events.foldl setState initialContext) event).authClient
      = event.authClient.getD (events.foldl setState initialContext).authClient ∧
    (setState (events.foldl setState initialContext) event).createOptions
      = event.createOptions.getD (events.foldl setState initialContext).createOptions ∧
    (setState (events.foldl setState initialContext) event).loginOptions
      = event.loginOptions.getD (events.foldl setState initialContext).loginOptions ∧
    (setState (events.foldl setState initialContext) event).status
      = event.status.getD (events.foldl setState initialContext).status ∧
    (setState (events.foldl setState initialContext) event).error
      = event.error.getD (events.foldl setState initialContext).error ∧
    (setState (events.foldl setState initialContext) event).identity
      = event.identity.getD (events.foldl setState initialContext).identity ∧
    (setState (events.foldl setState initialContext) event).clearIdentityOnExpiry
      = event.clearIdentityOnExpiry.getD
          (events.foldl setState initialContext).clearIdentityOnExpiry ∧
    setState (events.foldl setState initialContext) {}
      = events.foldl setState initialContext :=
  ⟨rfl, rfl, rfl, rfl, rfl, rfl, rfl, rfl, setState_empty _⟩

/-- C10: login writes only the status and error fields before returning; the
identity, authClient, providerComponentPresent, createOptions, loginOptions
and clearIdentityOnExpiry fields are unchanged on every branch. -/
theorem login_writes_only_status_and_error (context : StoreContext) (nowNs : Int) :
    (login context nowNs).1.identity = context.identity ∧
    (login context nowNs).1.authClient = context.authClient ∧
    (login context nowNs).1.providerComponentPresent
      = context.providerComponentPresent ∧
    (login context nowNs).1.createOptions = context.createOptions ∧
    (login context nowNs).1.loginOptions = context.loginOptions ∧
    (login context nowNs).1.clearIdentityOnExpiry
      = context.clearIdentityOnExpiry := by
  by_cases hP : context.providerComponentPresent = true
  · rcases hA : context.authClient with _ | ac
    · simp [login, hP, hA, setError, setState]
    · by_cases hV : validNonAnonymousDelegation ac.currentIdentity nowNs = true
      · simp [login, hP, hA, hV, setError, setState]
      · simp [login, hP, hA, hV, setState]
  · have hP2 : context.providerComponentPresent = false :=
      Bool.eq_false_iff.mpr hP
    simp [login, hP2, setError, setState]

/-- C1 counterexample: from an idle, mounted session whose auth client has
not completed a handshake, the first login sets status to "logging-in", and a
second login made before either callback fires is not rejected: it produces
no precondition error (status stays "logging-in", error stays absent) and
dispatches a second interactive handshake to the auth client. -/
theorem login_second_call_dispatches_again :
    (login readyIdleContext 0).1.status = Status.loggingIn ∧
    (login (login readyIdleContext 0).1 0).2
      = LoginOutcome.dispatched (resolveLoginOptions readyIdleContext) ∧
    (login (login readyIdleContext 0).1 0).1.status = Status.loggingIn ∧
    (login (login readyIdleContext 0).1 0).1.error = none := by
  refine ⟨rfl, rfl, rfl, rfl⟩

/-- C1 as amended: login has no in-progress guard; whenever the provider is
mounted, an auth client exists, and the client's identity is not a valid
non-anonymous delegation (as is the case while a handshake is still
pending), every login call — first or repeated — passes the preconditions,
sets status to "logging-in" with error cleared, and dispatches an interactive
handshake with the same resolved options. -/
theorem login_no_inflight_guard (context : StoreContext) (nowNs : Int)
    (ac : AuthClient)
    (h1 : context.providerComponentPresent = true)
    (h2 : context.authClient = some ac)
    (h3 : validNonAnonymousDelegation ac.currentIdentity nowNs = false) :
    (login context nowNs).2
      = LoginOutcome.dispatched (resolveLoginOptions context) ∧
    (login context nowNs).1.status = Status.loggingIn ∧
    (login context nowNs).1.error = none ∧
    (login (login context nowNs).1 nowNs).2
      = LoginOutcome.dispatched (resolveLoginOptions context) ∧
    (login (login context nowNs).1 nowNs).1.status = Status.loggingIn ∧
    (login (login context nowNs).1 nowNs).1.error = none := by
  simp [login, h1, h2, h3, setState, resolveLoginOptions]

/-- Witness for the amended C1 theorem at a concrete idle session. -/
theorem login_no_inflight_guard_witness :
    (login readyIdleContext 0).2
      = LoginOutcome.dispatched (resolveLoginOptions readyIdleContext) ∧
    (login readyIdleContext 0).1.status = Status.loggingIn ∧
    (login readyIdleContext 0).1.error = none ∧
    (login (login readyIdleContext 0).1 0).2
      = LoginOutcome.dispatched (resolveLoginOptions readyIdleContext) ∧
    (login (login readyIdleContext 0).1 0).1.status = Status.loggingIn ∧
    (login (login readyIdleContext 0).1 0).1.error = none :=
  login_no_inflight_guard readyIdleContext 0 anonymousAuthClient rfl rfl
    (by decide)

/-- C2: when status is neither "initializing" nor "error", ensureInitialized
answers from the live snapshot: the current identity exactly when the live
state is presently authenticated (non-empty, non-anonymous identity with a
valid delegation), absent otherwise; and since the answer is re-derived from
the live state, calling it after a successful logout yields absent. -/
theorem ensureInitialized_reflects_live_state (context : StoreContext)
    (nowNs : Int)
    (h1 : context.status ≠ Status.initializing)
    (h2 : context.status ≠ Status.error) :
    ensureInitialized context nowNs
      = EnsureResult.value
          (if isAuthenticated context nowNs then context.identity else none) ∧
    (isAuthenticated context nowNs = true →
      ensureInitialized context nowNs = EnsureResult.value context.identity) ∧
    (isAuthenticated context nowNs = false →
      ensureInitialized context nowNs = EnsureResult.value none) ∧
    (∀ ac newClient, context.authClient = some ac →
      ensureInitialized (clear context LogoutOutcome.resolvedOk newClient) nowNs
        = EnsureResult.value none) := by
  refine ⟨?_, ?_, ?_, ?_⟩
  · simp [ensureInitialized, h1, h2, getIdentity]
  · intro hA
    simp [ensureInitialized, h1, h2, getIdentity, hA]
  · intro hA
    simp [ensureInitialized, h1, h2, getIdentity, hA]
  · intro ac newClient hac
    simp [clear, hac, createAuthClient, setState, ensureInitialized,
      isAuthenticated, getIdentity]

/-- Witness for the C2 theorem at a concrete authenticated session and at its
logged-out successor. -/
theorem ensureInitialized_reflects_live_state_witness :
    ensureInitialized successContext 0
      = EnsureResult.value
          (if isAuthenticated successContext 0 then successContext.identity
            else none) ∧
    (isAuthenticated successContext 0 = true →
      ensureInitialized successContext 0
        = EnsureResult.value successContext.identity) ∧
    (isAuthenticated successContext 0 = false →
      ensureInitialized successContext 0 = EnsureResult.value none) ∧
    (∀ ac newClient, successContext.authClient = some ac →
      ensureInitialized (clear successContext LogoutOutcome.resolvedOk newClient) 0
        = EnsureResult.value none) :=
  ensureInitialized_reflects_live_state successContext 0 (by decide) (by decide)

/-- C4 counterexample: the handshake-failure transition from an authenticated
session sets status to "error" yet leaves the non-empty identity in place, so
a transition to Error does not clear the identity field, and identity is
non-empty while status is "error". -/
theorem error_transition_retains_identity_counterexample :
    (onLoginError successContext (some "handshake failed")).status
      = Status.error ∧
    (onLoginError successContext (some "handshake failed")).identity
      = some validDelegatedIdentity ∧
    some validDelegatedIdentity ≠ (none : Option Identity) := by
  refine ⟨rfl, rfl, by decide⟩

/-- C4 as amended: the successful-logout transition to "idle" clears the
identity, but every transition to "error" (the setError helper, and the
logout-failure path) leaves the identity field unchanged, so the identity may
remain non-empty while status is "error". -/
theorem identity_cleared_on_idle_retained_on_error (context : StoreContext)
    (newClient : AuthClient) (e : Option String) (msg : String)
    (ac : AuthClient) (h : context.authClient = some ac) :
    (clear context LogoutOutcome.resolvedOk newClient).identity = none ∧
    (clear context LogoutOutcome.resolvedOk newClient).status = Status.idle ∧
    (clear context (LogoutOutcome.rejected e) newClient).identity
      = context.identity ∧
    (clear context (LogoutOutcome.rejected e) newClient).status = Status.error ∧
    (setError context msg).identity = context.identity ∧
    (setError context msg).status = Status.error := by
  simp [clear, h, createAuthClient, setState, setError]

/-- Witness for the amended C4 theorem at a concrete authenticated session. -/
theorem identity_cleared_on_idle_retained_on_error_witness :
    (clear successContext LogoutOutcome.resolvedOk anonymousAuthClient).identity
      = none ∧
    (clear successContext LogoutOutcome.resolvedOk anonymousAuthClient).status
      = Status.idle ∧
    (clear successContext (LogoutOutcome.rejected (some "boom"))
        anonymousAuthClient).identity
      = successContext.identity ∧
    (clear successContext (LogoutOutcome.rejected (some "boom"))
        anonymousAuthClient).status
      = Status.error ∧
    (setError successContext "oops").identity = successContext.identity ∧
    (setError successContext "oops").status = Status.error :=
  identity_cleared_on_idle_retained_on_error successContext anonymousAuthClient
    (some "boom") "oops" (AuthClient.mk validDelegatedIdentity) rfl

/-- C8: whenever clear fails — because no auth client handle exists, or
because the external logout operation rejects — the state transitions to
"error" with the failure reason while the identity field retains its prior
value on that error path. -/
theorem clear_failure_preserves_identity (context : StoreContext)
    (outcome : LogoutOutcome) (newClient : AuthClient) (e : Option String)
    (h : context.authClient = none ∨ outcome = LogoutOutcome.rejected e) :
    (clear context outcome newClient).status = Status.error ∧
    (clear context outcome newClient).identity = context.identity ∧
    (context.authClient = none →
      (clear context outcome newClient).error
        = some "Auth client not initialized") ∧
    (∀ ac, context.authClient = some ac →
      (clear context outcome newClient).error = some (e.getD "Logout failed")) := by
  rcases hac : context.authClient with _ | ac
  · refine ⟨?_, ?_, ?_, ?_⟩
    · simp [clear, hac, setError, setState]
    · simp [clear, hac, setError, setState]
    · intro
      simp [clear, hac, setError, setState]
    · intro ac hc
      exact Option.noConfusion hc
  · rcases h with h | h
    · rw [hac] at h
      exact Option.noConfusion h
    · subst h
      refine ⟨?_, ?_, ?_, ?_⟩
      · simp [clear, hac, setState]
      · simp [clear, hac, setState]
      · intro hc
        exact Option.noConfusion hc
      · intro ac2 hc
        simp [clear, hac, setState]

/-- Witness for the C8 theorem: clear on a session with no auth client handle
and an identity still present. -/
theorem clear_failure_preserves_identity_witness :
    (clear noClientContext LogoutOutcome.resolvedOk anonymousAuthClient).status
      = Status.error ∧
    (clear noClientContext LogoutOutcome.resolvedOk anonymousAuthClient).identity
      = noClientContext.identity ∧
    (noClientContext.authClient = none →
      (clear noClientContext LogoutOutcome.resolvedOk anonymousAuthClient).error
        = some "Auth client not initialized") ∧
    (∀ ac, noClientContext.authClient = some ac →
      (clear noClientContext LogoutOutcome.resolvedOk anonymousAuthClient).error
        = some ((none : Option String).getD "Logout failed")) :=
  clear_failure_preserves_identity noClientContext LogoutOutcome.resolvedOk
    anonymousAuthClient none (Or.inl rfl)

/-- C5 counterexample: at the handshake-success arming the newly obtained
identity's delegation expires at 9.0e12 ns = 9.0e6 ms; with now = 1.0e7 ms the
claimed delay max(expiryMs − nowMs − 1000, 0) is 0, yet the code schedules
3599000 ms (the default requested lifetime minus one second), which also
shows the scheduled delay is not a function of the expiry instant and the
clock at all. -/
theorem arming_delay_formula_counterexample :
    (onLoginSuccess loginSuccessContextExpired).2 = [TimerRequest.mk 3599000] ∧
    (AuthClient.mk expiredDelegatedIdentity).currentIdentity.getDelegation
      = some (DelegationChain.mk [9000000000000]) ∧
    (3599000 : Int) ≠ max (9000000000000 / 1000000 - 10000000 - 1000) 0 := by
  refine ⟨rfl, rfl, by decide⟩

/-- C5 as amended: the handshake-success arming schedules
maxTimeToLive (default one hour) converted to ms minus the 1000 ms margin, a
quantity computed solely from the captured loginOptions and hence independent
of the delegation's expiry instant and of the current time; only the
restore-path arming schedules expirationMs − nowMs − 1000, for the first
delegation's expiration, and it passes that raw difference to the host timer
without clamping negative values to 0 itself. -/
theorem expiry_timer_delay_characterization (context : StoreContext)
    (ac : AuthClient) (b : Bool) (chain : DelegationChain) (nowMs : Int)
    (h1 : context.authClient = some ac)
    (h2 : context.clearIdentityOnExpiry = true) :
    (onLoginSuccess context).2 = [TimerRequest.mk (onLoginSuccessDelayMs context)] ∧
    (∀ context2 : StoreContext, context2.loginOptions = context.loginOptions →
      onLoginSuccessDelayMs context2 = onLoginSuccessDelayMs context) ∧
    restoreTimer true (Identity.delegated b chain) nowMs
      = chain.delegations.head?.map
          (fun expiration => TimerRequest.mk (expiration / 1000000 - nowMs - 1000)) := by
  refine ⟨?_, ?_, ?_⟩
  · simp [onLoginSuccess, h1, h2]
  · intro context2 hl
    simp [onLoginSuccessDelayMs, hl]
  · cases hh : chain.delegations.head? with
    | none => simp [restoreTimer, hh]
    | some expiration => simp [restoreTimer, hh, restoreDelayMs]

/-- Witness for the amended C5 theorem at the concrete expired-delegation
session. -/
theorem expiry_timer_delay_characterization_witness :
    (onLoginSuccess loginSuccessContextExpired).2
      = [TimerRequest.mk (onLoginSuccessDelayMs loginSuccessContextExpired)] ∧
    (∀ context2 : StoreContext,
      context2.loginOptions = loginSuccessContextExpired.loginOptions →
      onLoginSuccessDelayMs context2
        = onLoginSuccessDelayMs loginSuccessContextExpired) ∧
    restoreTimer true (Identity.delegated false (DelegationChain.mk [9000000000000])) 10000000
      = (DelegationChain.mk [9000000000000]).delegations.head?.map
          (fun expiration => TimerRequest.mk (expiration / 1000000 - 10000000 - 1000)) :=
  expiry_timer_delay_characterization loginSuccessContextExpired
    (AuthClient.mk expiredDelegatedIdentity) false
    (DelegationChain.mk [9000000000000]) 10000000 rfl rfl

/-- C6 counterexample: two handshake-success transitions that differ only in
the obtained identity's delegation expiration (1.0e12 ns versus 2.0e15 ns)
arm the identical timer of 7199000 ms, while changing only the requested
lifetime from two hours to one hour changes the timer to 3599000 ms: the
scheduler is armed against the requested lifetime, not against the identity's
delegation expiration instant. -/
theorem arming_ignores_delegation_expiry_counterexample :
    (onLoginSuccess ctxNear).2 = [TimerRequest.mk 7199000] ∧
    (onLoginSuccess ctxFar).2 = [TimerRequest.mk 7199000] ∧
    (onLoginSuccess ctxNearOneHour).2 = [TimerRequest.mk 3599000] ∧
    acExpiryNear.currentIdentity.getDelegation
      ≠ acExpiryFar.currentIdentity.getDelegation := by
  refine ⟨rfl, rfl, rfl, by decide⟩

/-- C6 as amended: on handshake success with auto-invalidation enabled and an
auth client present, a timer is armed whose delay is derived from the
requested maxTimeToLive (default one hour) minus one second; the delay is
unchanged under any replacement of the auth client (hence of the obtained
identity and its delegation-expiry metadata), and the success state is
merged with the obtained identity. -/
theorem onLoginSuccess_arms_requested_lifetime (context : StoreContext)
    (ac : AuthClient)
    (h1 : context.authClient = some ac)
    (h2 : context.clearIdentityOnExpiry = true) :
    (onLoginSuccess context).2 = [TimerRequest.mk (onLoginSuccessDelayMs context)] ∧
    (∀ ac2 : AuthClient,
      (onLoginSuccess { context with authClient := some ac2 }).2
        = (onLoginSuccess context).2) ∧
    (onLoginSuccess context).1.status = Status.success ∧
    (onLoginSuccess context).1.identity = some ac.currentIdentity := by
  refine ⟨?_, ?_, ?_, ?_⟩
  · simp [onLoginSuccess, h1, h2]
  · intro ac2
    simp [onLoginSuccess, h1, h2, onLoginSuccessDelayMs]
  · simp [onLoginSuccess, h1, h2, setState]
  · simp [onLoginSuccess, h1, h2, setState]

/-- Witness for the amended C6 theorem at the concrete two-hour session. -/
theorem onLoginSuccess_arms_requested_lifetime_witness :
    (onLoginSuccess ctxNear).2 = [TimerRequest.mk (onLoginSuccessDelayMs ctxNear)] ∧
    (∀ ac2 : AuthClient,
      (onLoginSuccess { ctxNear with authClient := some ac2 }).2
        = (onLoginSuccess ctxNear).2) ∧
    (onLoginSuccess ctxNear).1.status = Status.success ∧
    (onLoginSuccess ctxNear).1.identity = some acExpiryNear.currentIdentity :=
  onLoginSuccess_arms_requested_lifetime ctxNear acExpiryNear rfl rfl

/-- C7 counterexample: after the restore path arms an expiry timer, a
successful logout leaves that timer pending (it is not disarmed before the
session returns to "idle"), and a subsequent successful re-login arms a
second timer, so two expiry timers are live at once. -/
theorem pending_timer_survives_logout_counterexample :
    sAfterRestore.timers.length = 1 ∧
    (stepClear sAfterRestore LogoutOutcome.resolvedOk anonymousAuthClient).timers
      = sAfterRestore.timers ∧
    sAfterClear.context.status = Status.idle ∧
    sAfterRelogin.timers.length = 2 := by
  refine ⟨rfl, rfl, rfl, rfl⟩

/-- C7 as amended: no transition ever cancels an expiry timer — the source
keeps no setTimeout handle and contains no clearTimeout — so clear and login
leave the pending-timer set unchanged and the two arming transitions append
to it; consequently several expiry timers can be live simultaneously. -/
theorem timers_never_cancelled (s : SysState) (outcome : LogoutOutcome)
    (newClient : AuthClient) (identity : Identity) (nowMs nowNs : Int) :
    (stepClear s outcome newClient).timers = s.timers ∧
    (stepLogin s nowNs).1.timers = s.timers ∧
    (stepLoginSuccess s).timers = s.timers ++ (onLoginSuccess s.context).2 ∧
    (stepRestoreSuccess s identity nowMs).timers
      = s.timers
          ++ (restoreTimer s.context.clearIdentityOnExpiry identity nowMs).toList :=
  ⟨rfl, rfl, rfl, rfl⟩

/-- C9: all waiters that subscribed to the epoch's barrier while it was
pending are released by its settlement exactly once each, in subscription
order, with the settled outcome; a second settlement attempt releases nobody
(silent no-op); and a caller that arrives after the epoch settled (status no
longer "initializing") is answered without touching the barrier, so it cannot
hang. -/
theorem initialization_barrier_contract (ws : List Nat) (o o2 : Outcome)
    (context : StoreContext) (nowNs : Int)
    (h : context.status ≠ Status.initializing) :
    (settle (ws.foldl subscribe createInitializationPromise) o).2
      = ws.map (fun w => (w, o)) ∧
    (settle (settle (ws.foldl subscribe createInitializationPromise) o).1 o2).2
      = [] ∧
    ensureInitialized context nowNs ≠ EnsureResult.awaitBarrier := by
  have hfold := foldl_subscribe_pending ws []
  refine ⟨?_, ?_, ?_⟩
  · show (settle (ws.foldl subscribe (GateState.mk (PromiseState.pending []) true)) o).2
      = ws.map (fun w => (w, o))
    rw [hfold]
    simp [settle]
  · show (settle (settle (ws.foldl subscribe (GateState.mk (PromiseState.pending []) true)) o).1 o2).2
      = []
    rw [hfold]
    simp [settle]
  · by_cases he : context.status = Status.error
    · simp [ensureInitialized, he]
    · simp [ensureInitialized, he, h]

/-- Witness for the C9 theorem: two waiters, a value settlement, a late
second settlement, and a late caller on an idle session. -/
theorem initialization_barrier_contract_witness :
    (settle ([0, 1].foldl subscribe createInitializationPromise)
        (Outcome.value none)).2
      = [0, 1].map (fun w => (w, Outcome.value none)) ∧
    (settle (settle ([0, 1].foldl subscribe createInitializationPromise)
          (Outcome.value none)).1
        (Outcome.failure "late")).2
      = [] ∧
    ensureInitialized readyIdleContext 0 ≠ EnsureResult.awaitBarrier :=
  initialization_barrier_contract [0, 1] (Outcome.value none)
    (Outcome.failure "late") readyIdleContext 0 (by decide)

end II
